import Mathlib

/-!
Shallow embedding of the oil-debris test firmware
(`src/Oil Debris Test/src/main.cpp`): the shared cells, the sampler task
cycle, the three HTTP request handlers and the route table, and the task
spawns of `setup`.  C++ `float`/`double` arithmetic is modelled by exact
rationals; the machine-width narrowing to `uint8_t` is modelled explicitly.
-/

namespace OilDebris

/-- An HTTP response as produced by `WebServer::send (status, type, body)`. -/
structure HttpResponse where
  status : Nat
  contentType : String
  body : String
  deriving DecidableEq

/-! ## Sampler arithmetic (task_sensor, main.cpp lines 227-232) -/

/-- Voltage conversion on channel 1, from
`float voltage1 = analogRead(fine_wear) * (5 / 4095.0);` (line 227).
`5 / 4095.0` is C++ double arithmetic, modelled as the exact rational. -/
def voltage1 (raw : ℕ) : ℚ := (raw : ℚ) * (5 / 4095)

/-- Voltage conversion on channel 2, from
`float voltage2 = analogRead(coarse_wear) * (5 / 4095.0);` (line 228). -/
def voltage2 (raw : ℕ) : ℚ := (raw : ℚ) * (5 / 4095)

/-- The narrowing conversion performed by `v_fine.put(voltage1)` (line 231):
the cell has type `uint8_t`, so the C++ float-to-unsigned conversion
truncates the voltage toward zero; for the in-range voltages produced here
(0 V to 5 V) this is the floor.  The `% 256` records the 8-bit width of the
cell type. -/
def truncToUInt8 (q : ℚ) : ℕ := q.floor.toNat % 256

/-- The value the sampler stores into a cell for a raw ADC count. -/
def storedCell (raw : ℕ) : ℕ := truncToUInt8 (voltage1 raw)

/-! ## Shared cells (taskshare.h, declared at main.cpp lines 40-41)

Modelled from the spec: the `Share<uint8_t>` class lives in `taskshare.h`,
which is not among the repository sources.  The spec stipulates that
`put(v)` unconditionally replaces the stored value, that `get()` returns
the most recently stored value (or the initial value if none has been
stored), and that no torn or synthetic value is ever observable. -/

/-- One operation on a shared cell, performed by some task. -/
inductive ShareOp (α : Type) where
  | put : α → ShareOp α
  | get : ShareOp α
  deriving DecidableEq

/-- Modelled from the spec: the effect of one `Share` operation on the
stored value — `put v` replaces it, `get` leaves it unchanged. -/
def shareStep {α : Type} (s : α) : ShareOp α → α
  | ShareOp.put v => v
  | ShareOp.get => s

/-- Modelled from the spec: the value held by a `Share` cell created with
`init` after an arbitrary interleaving `ops` of `put` and `get` operations;
this is also the value a `get` at that point returns. -/
def shareState {α : Type} (init : α) (ops : List (ShareOp α)) : α :=
  ops.foldl shareStep init

/-! ## HTTP request handlers (main.cpp lines 118-188)

Literal `{` and `}` of the CSS source text are written with the escapes
`\x7b` and `\x7d`. -/

/-- From `HTML_header` (lines 118-130): appends the common page header,
with the given title, to `a_string`. -/
def HTML_header (a_string : String) (page_title : String) : String :=
  a_string
    ++ "<!DOCTYPE html> <html>\n"
    ++ "<head><meta name=\"viewport\" content=\"width=device-width,"
    ++ " initial-scale=1.0, user-scalable=no\">\n<title> "
    ++ page_title
    ++ "</title>\n"
    ++ "<style>html \x7b font-family: Helvetica; display: inline-block;"
    ++ " margin: 0px auto; text-align: center;\x7d\n"
    ++ "body\x7bmargin-top: 50px;\x7d h1 \x7bcolor: #4444AA;margin: 50px auto 30px;\x7d\n"
    ++ "p \x7bfont-size: 24px;color: #222222;margin-bottom: 10px;\x7d\n"
    ++ "</style>\n</head>\n"

/-- From `handle_DocumentRoot` (lines 140-153): the landing page for `/`,
sent with `server.send (200, "text/html", a_str)`.  The handler reads no
shared cell, so the embedding takes no cell argument. -/
def handle_DocumentRoot : HttpResponse :=
  let a_str := HTML_header "" "ESP32 Web Server Test"
  let a_str := a_str
    ++ "<body>\n<div id=\"webpage\">\n"
    ++ "<h1>Oil Debri Testing Page</h1>\n"
    ++ "<p><p> <a href=\"/csv\">Debri Test Data</a>\n"
    ++ "</div>\n</body>\n</html>\n"
  ⟨200, "text/html", a_str⟩

/-- From `handle_NotFound` (lines 159-162):
`server.send (404, "text/plain", "Not found")`. -/
def handle_NotFound : HttpResponse :=
  ⟨404, "text/plain", "Not found"⟩

/-- One CSV data row as built in the loop body of `handle_Sensor`
(lines 180-183): the fine reading, a comma, the coarse reading, a newline.
`String (v_fine.get())` renders the `uint8_t` value in decimal. -/
def sensorRow (f c : ℕ) : String :=
  Nat.repr f ++ "," ++ Nat.repr c ++ "\n"

/-- From `handle_Sensor` (lines 170-188): the CSV body.  The source calls
`v_fine.get()` and `v_coarse.get()` inside the loop, once per iteration;
`fineReads i` and `coarseReads i` are the values those calls return at
iteration `i`, which a concurrent sampler may change between iterations. -/
def handle_Sensor_body (fineReads coarseReads : ℕ → ℕ) : String :=
  (List.range 20).foldl
    (fun IMU_str index => IMU_str ++ sensorRow (fineReads index) (coarseReads index))
    "Fine Voltage, Coarse Voltage\n"

/-- From `handle_Sensor` (line 187): the CSV response is sent with
`server.send (404, "text/plain", IMU_str)`. -/
def handle_Sensor (fineReads coarseReads : ℕ → ℕ) : HttpResponse :=
  ⟨404, "text/plain", handle_Sensor_body fineReads coarseReads⟩

/-! ## Route dispatch (task_webserver, main.cpp lines 203-205) -/

/-- The route table installed by `task_webserver`:
`server.on ("/", handle_DocumentRoot); server.on ("/csv", handle_Sensor);
server.onNotFound (handle_NotFound);`. -/
def routeOf (path : String) (fineReads coarseReads : ℕ → ℕ) : HttpResponse :=
  if path = "/" then handle_DocumentRoot
  else if path = "/csv" then handle_Sensor fineReads coarseReads
  else handle_NotFound

/-! ## Serial output of the sampler (task_sensor, main.cpp lines 243-253) -/

/-- Arduino `Print::print(float)` renders a value with two decimal places:
it adds the rounding term 1/200, prints the integer part, a dot, then two
digits obtained by repeated scaling and truncation.  For the nonnegative
values printed here this equals the digits of `floor((q + 1/200) * 100)`. -/
def serialScaled (q : ℚ) : ℕ := ( Rat.floor ((q + 1 / 200) * 100)).toNat

/-- The decimal text Arduino prints for the value: integer part, a dot,
and the two fractional digits (zero-padded). -/
def serialFloatRepr (q : ℚ) : String :=
  Nat.repr (serialScaled q / 100) ++ "."
    ++ (if serialScaled q % 100 < 10 then "0" else "")
    ++ Nat.repr (serialScaled q % 100)

/-- The serial line emitted by one `task_sensor` cycle (lines 243-253):
the `Serial.print` calls in order, ending with `Serial.println ("V")`,
which appends the newline.  Note the leading space of
`" Fine Wear Voltage: "` in the source. -/
def debugLine (v1 v2 : ℚ) : String :=
  " Fine Wear Voltage: " ++ serialFloatRepr v1 ++ "V"
    ++ " Coarse Wear Voltage: " ++ serialFloatRepr v2 ++ "V"
    ++ " Sum: " ++ serialFloatRepr (v1 + v2) ++ "V" ++ "\n"

/-- The observable result of one `task_sensor` loop iteration
(lines 224-257): the two cell values published by `v_fine.put` /
`v_coarse.put` and the serial line printed, as functions of the two raw
ADC readings. -/
structure SensorCycle where
  fineCell : ℕ
  coarseCell : ℕ
  serialOut : String
  deriving DecidableEq

/-- One full `task_sensor` cycle on raw ADC counts `rawFine`, `rawCoarse`:
computes the two voltages, stores their `uint8_t` truncations in the cells,
and prints one line with both voltages and their sum (`float sum =
voltage1 + voltage2;`, line 235). -/
def sensorCycle (rawFine rawCoarse : ℕ) : SensorCycle :=
  ⟨truncToUInt8 (voltage1 rawFine), truncToUInt8 (voltage2 rawCoarse),
    debugLine (voltage1 rawFine) (voltage2 rawCoarse)⟩

/-- The serial line as the spec words it: `Fine Wear Voltage: <v1>V Coarse
Wear Voltage: <v2>V Sum: <v1+v2>V`, with no leading space.  This definition
follows the spec's words, to be compared with `debugLine`, which follows
the source. -/
def specDebugLine (v1 v2 : ℚ) : String :=
  "Fine Wear Voltage: " ++ serialFloatRepr v1 ++ "V"
    ++ " Coarse Wear Voltage: " ++ serialFloatRepr v2 ++ "V"
    ++ " Sum: " ++ serialFloatRepr (v1 + v2) ++ "V" ++ "\n"

/-- The values a shared cell can hold while the firmware runs: its initial
value `0` (lines 40-41: `Share<uint8_t> v_fine (0)`), or whatever a sampler
cycle stored, for raw ADC counts within the 12-bit range of the ESP32
analog reader. -/
inductive cellReachable : ℕ → Prop where
  | init : cellReachable 0
  | fine (r1 r2 : ℕ) (h1 : r1 ≤ 4095) (h2 : r2 ≤ 4095) :
      cellReachable ((sensorCycle r1 r2).fineCell)
  | coarse (r1 r2 : ℕ) (h1 : r1 ≤ 4095) (h2 : r2 ≤ 4095) :
      cellReachable ((sensorCycle r1 r2).coarseCell)

/-! ## Task spawns of setup (main.cpp lines 277-280) -/

/-- One `xTaskCreate` call: task name, stack depth, priority. -/
structure TaskSpawn where
  name : String
  stackDepth : ℕ
  priority : ℕ
  deriving DecidableEq

/-- The tasks spawned by `setup` (lines 277-280), in program order:
`xTaskCreate (task_webserver, "Web Server", 8192, NULL, 2, NULL)` and
`xTaskCreate (task_sensor, "Sensor", 4000, NULL, 4, NULL)`. -/
def setupSpawns : List TaskSpawn :=
  [⟨"Web Server", 8192, 2⟩, ⟨"Sensor", 4000, 4⟩]

/-! ## Helper lemmas -/

/-- Digit characters are never a newline. -/
theorem digitChar_ne_newline (m : ℕ) : Nat.digitChar m ≠ '\n' := by
  by_cases h : m < 16
  · interval_cases m <;> decide
  · have h16 : Nat.digitChar m = '*' := by
      unfold Nat.digitChar
      repeat rw [if_neg (by omega)]
    rw [h16]; decide

/-- Every character produced by `Nat.toDigitsCore` is either from the
accumulator or a digit character. -/
theorem mem_toDigitsCore (b : ℕ) :
    ∀ (fuel n : ℕ) (ds : List Char) (c : Char),
      c ∈ Nat.toDigitsCore b fuel n ds → c ∈ ds ∨ ∃ m, c = Nat.digitChar m := by
  intro fuel
  induction fuel with
  | zero => intro n ds c h; exact Or.inl h
  | succ f ih =>
    intro n ds c h
    unfold Nat.toDigitsCore at h
    by_cases h0 : n / b = 0
    · simp only [h0, if_pos rfl] at h
      rcases List.mem_cons.mp h with h1 | h1
      · exact Or.inr ⟨n % b, h1⟩
      · exact Or.inl h1
    · simp only [if_neg h0] at h
      rcases ih (n / b) (Nat.digitChar (n % b) :: ds) c h with h1 | h1
      · rcases List.mem_cons.mp h1 with h2 | h2
        · exact Or.inr ⟨n % b, h2⟩
        · exact Or.inl h2
      · exact Or.inr h1

/-- The decimal rendering of a natural number contains no newline. -/
theorem newline_not_mem_repr (n : ℕ) : '\n' ∉ (Nat.repr n).data := by
  intro h
  have hmem : '\n' ∈ Nat.toDigits 10 n := by
    simpa [Nat.repr, List.asString] using h
  rcases mem_toDigitsCore 10 (n + 1) n [] '\n' hmem with h1 | h1
  · exact absurd h1 (List.not_mem_nil _)
  · rcases h1 with ⟨m, hm⟩
    exact digitChar_ne_newline m hm.symm

/-- Newline count of a decimal rendering is zero. -/
theorem repr_count_newline (n : ℕ) : (Nat.repr n).data.count '\n' = 0 :=
  List.count_eq_zero.mpr (newline_not_mem_repr n)

/-- Joining a nonempty list of strings peels off the head. -/
theorem join_cons (a : String) (l : List String) :
    String.join (a :: l) = a ++ String.join l := by
  apply String.ext
  simp [String.join_eq]

/-- A left fold that appends `g i` for each list element equals the initial
string followed by the join of the pieces. -/
theorem foldl_append_eq_join (g : ℕ → String) :
    ∀ (l : List ℕ) (init : String),
      l.foldl (fun s i => s ++ g i) init = init ++ String.join (l.map g) := by
  intro l
  induction l with
  | nil => intro init; simp [String.join]
  | cons a l ih =>
    intro init
    simp only [List.foldl_cons, List.map_cons]
    rw [ih, join_cons, String.append_assoc]

/-- Character count of a join is the sum of the counts of the pieces. -/
theorem join_count (c : Char) :
    ∀ l : List String,
      (String.join l).data.count c = (l.map (fun s => s.data.count c)).sum := by
  intro l
  induction l with
  | nil => simp [String.join]
  | cons a l ih =>
    rw [join_cons]
    simp only [String.data_append, List.count_append, List.map_cons, List.sum_cons, ih]

/-- Each CSV data row carries exactly one newline. -/
theorem sensorRow_count_newline (f c : ℕ) : (sensorRow f c).data.count '\n' = 1 := by
  simp [sensorRow, String.data_append, List.count_append, repr_count_newline]

/-- The CSV body is the header followed by one row per loop iteration,
row `i` showing the values returned by the `get` calls of iteration `i`. -/
theorem handle_Sensor_body_eq (fineReads coarseReads : ℕ → ℕ) :
    handle_Sensor_body fineReads coarseReads
      = "Fine Voltage, Coarse Voltage\n"
        ++ String.join ((List.range 20).map
              (fun i => sensorRow (fineReads i) (coarseReads i))) :=
  foldl_append_eq_join _ _ _

/-- With cell values unchanged for the whole handler run, the CSV body is
the header followed by twenty identical rows. -/
theorem handle_Sensor_body_const (f c : ℕ) :
    handle_Sensor_body (fun _ => f) (fun _ => c)
      = "Fine Voltage, Coarse Voltage\n"
        ++ String.join (List.replicate 20 (sensorRow f c)) := by
  rw [handle_Sensor_body_eq]
  congr 1

/-- The CSV body always holds exactly 21 newlines: the header's and one
per data row. -/
theorem handle_Sensor_body_count_newline (fineReads coarseReads : ℕ → ℕ) :
    (handle_Sensor_body fineReads coarseReads).data.count '\n' = 21 := by
  rw [handle_Sensor_body_eq]
  simp only [String.data_append, List.count_append, join_count, List.map_map]
  have h1 : ("Fine Voltage, Coarse Voltage\n").data.count '\n' = 1 := by decide
  rw [h1]
  have h2 : ∀ i : ℕ,
      ((fun s => s.data.count '\n') ∘ fun i => sensorRow (fineReads i) (coarseReads i)) i
        = 1 := by
    intro i
    simp [Function.comp, sensorRow_count_newline]
  rw [List.map_congr_left (fun i _ => h2 i)]
  simp

/-! ## Claim theorems -/

/-- C1: every request routed to `/csv` is answered by the CSV handler with
HTTP status 404 and content type `text/plain`, and the body is the header
line `Fine Voltage, Coarse Voltage\n` followed by exactly twenty data rows,
each the fine-cell value, a comma, the coarse-cell value and a newline —
21 newline-terminated lines in total. -/
theorem csv_response_shape (f c : ℕ) :
    routeOf "/csv" (fun _ => f) (fun _ => c)
      = ⟨404, "text/plain",
          "Fine Voltage, Coarse Voltage\n"
            ++ String.join (List.replicate 20 (sensorRow f c))⟩
    ∧ (routeOf "/csv" (fun _ => f) (fun _ => c)).body.data.count '\n' = 21 := by
  have hroute : routeOf "/csv" (fun _ => f) (fun _ => c)
      = handle_Sensor (fun _ => f) (fun _ => c) := by
    simp [routeOf]
  constructor
  · rw [hroute]
    unfold handle_Sensor
    rw [handle_Sensor_body_const]
  · rw [hroute]
    show (handle_Sensor_body (fun _ => f) (fun _ => c)).data.count '\n' = 21
    exact handle_Sensor_body_count_newline _ _

/-- C2 counterexample: the CSV handler does not take a single snapshot of
the cells at entry.  If the fine cell reads `2` at the first loop iteration
and `7` afterwards (a sampler publishing mid-handler), the body is not the
header followed by twenty copies of the entry row `2,3`; the later rows
show the updated value. -/
theorem csv_not_entry_snapshot_counterexample :
    handle_Sensor_body (fun i => if i = 0 then 2 else 7) (fun _ => 3)
        ≠ "Fine Voltage, Coarse Voltage\n"
          ++ String.join (List.replicate 20 (sensorRow 2 3))
      ∧ handle_Sensor_body (fun i => if i = 0 then 2 else 7) (fun _ => 3)
          = "Fine Voltage, Coarse Voltage\n" ++ sensorRow 2 3
            ++ String.join (List.replicate 19 (sensorRow 7 3)) := by
  constructor
  · decide
  · decide

/-- C2 amended: the handler performs one `get` on each cell per data row
(twenty reads of each cell in all, not one), so row `i` shows the values
read at iteration `i`; when the cells are unchanged for the whole handler
run, all twenty rows are identical. -/
theorem csv_rows_track_per_row_reads :
    (∀ fineReads coarseReads : ℕ → ℕ,
        handle_Sensor_body fineReads coarseReads
          = "Fine Voltage, Coarse Voltage\n"
            ++ String.join ((List.range 20).map
                  (fun i => sensorRow (fineReads i) (coarseReads i))))
    ∧ ∀ f c : ℕ,
        handle_Sensor_body (fun _ => f) (fun _ => c)
          = "Fine Voltage, Coarse Voltage\n"
            ++ String.join (List.replicate 20 (sensorRow f c)) :=
  ⟨handle_Sensor_body_eq, handle_Sensor_body_const⟩

/-- C7: any path other than `/` and `/csv` is answered with HTTP 404,
content type `text/plain` and body exactly `Not found`. -/
theorem notfound_response (path : String) (fineReads coarseReads : ℕ → ℕ)
    (h1 : path ≠ "/") (h2 : path ≠ "/csv") :
    routeOf path fineReads coarseReads = ⟨404, "text/plain", "Not found"⟩ := by
  unfold routeOf
  rw [if_neg h1, if_neg h2]
  rfl

/-- C7 witness: `/no_such_page` gets the 404 `Not found` response. -/
theorem notfound_response_witness :
    routeOf "/no_such_page" (fun _ => 0) (fun _ => 0)
      = ⟨404, "text/plain", "Not found"⟩ :=
  notfound_response "/no_such_page" (fun _ => 0) (fun _ => 0)
    (by decide) (by decide)

/-- C8: after any interleaving of `put` and `get` operations on a shared
cell, the value a `get` observes is the initial value or a value some `put`
in the interleaving supplied — never a partial or synthetic value. -/
theorem share_get_initial_or_put {α : Type} (init : α) (ops : List (ShareOp α)) :
    shareState init ops = init
      ∨ ∃ v, ( ShareOp.put v) ∈ ops ∧ shareState init ops = v := by
  induction ops generalizing init with
  | nil => exact Or.inl rfl
  | cons op ops ih =>
    have hstep : shareState init (op :: ops) = shareState (shareStep init op) ops :=
      rfl
    rcases ih (shareStep init op) with h | ⟨v, hv, hs⟩
    · cases op with
      | put w =>
        refine Or.inr ⟨w, List.mem_cons_self .., ?_⟩
        rw [hstep, h]; rfl
      | get =>
        left
        rw [hstep, h]; rfl
    · exact Or.inr ⟨v, List.mem_cons_of_mem _ hv, hstep ▸ hs⟩

/-! ## Numeric helper lemmas for the sampler -/

/-- The computable rational floor agrees with the order-theoretic floor. -/
theorem ratFloor_eq (q : ℚ) : q.floor = ⌊q⌋ :=
  (Rat.floor_def' q).trans Rat.floor_def.symm

/-- Converted voltages are nonnegative. -/
theorem voltage1_nonneg (raw : ℕ) : 0 ≤ voltage1 raw := by
  unfold voltage1
  positivity

/-- Within the 12-bit ADC range the converted voltage is at most 5 V. -/
theorem voltage1_le_five (raw : ℕ) (h : raw ≤ 4095) : voltage1 raw ≤ 5 := by
  unfold voltage1
  have hc : (raw : ℚ) ≤ 4095 := by exact_mod_cast h
  calc (raw : ℚ) * (5 / 4095) ≤ 4095 * (5 / 4095) := by
        apply mul_le_mul_of_nonneg_right hc
        norm_num
    _ = 5 := by norm_num

/-- The `uint8_t` truncation of an in-range voltage, as an integer, is its
floor: the value is in `[0, 5]`, so neither `toNat` nor the 8-bit wrap
changes it. -/
theorem truncToUInt8_eq_floor (raw : ℕ) (h : raw ≤ 4095) :
    (truncToUInt8 (voltage1 raw) : ℤ) = ⌊voltage1 raw⌋ := by
  unfold truncToUInt8
  rw [ratFloor_eq]
  have hnn : 0 ≤ ⌊voltage1 raw⌋ := Int.floor_nonneg.mpr (voltage1_nonneg raw)
  have hle : ⌊voltage1 raw⌋ ≤ 5 := by
    have := Int.floor_le_floor (α := ℚ) (voltage1_le_five raw h)
    simpa using this
  omega

/-- The value stored into a cell is at most 5. -/
theorem truncToUInt8_le_five (raw : ℕ) (h : raw ≤ 4095) :
    truncToUInt8 (voltage1 raw) ≤ 5 := by
  have := truncToUInt8_eq_floor raw h
  have hle : ⌊voltage1 raw⌋ ≤ 5 := by
    have := Int.floor_le_floor (α := ℚ) (voltage1_le_five raw h)
    simpa using this
  omega

/-! ## More claim theorems -/

/-- C3: each sampler cycle stores into each cell the converted voltage
truncated to the `uint8_t` cell type — the stored natural number is below
the voltage by less than one and fits in 8 bits — and with the fine cell
at 2 and the coarse cell at 3 the CSV body begins
`Fine Voltage, Coarse Voltage\n2,3\n2,3\n` and has exactly 20 data rows
(21 newlines with the header). -/
theorem sampler_stores_truncated_voltage (r1 r2 : ℕ) (h1 : r1 ≤ 4095) :
    ((sensorCycle r1 r2).fineCell = truncToUInt8 (voltage1 r1)
        ∧ (sensorCycle r1 r2).coarseCell = truncToUInt8 (voltage2 r2))
    ∧ (((sensorCycle r1 r2).fineCell : ℚ) ≤ voltage1 r1
        ∧ voltage1 r1 < (sensorCycle r1 r2).fineCell + 1
        ∧ (sensorCycle r1 r2).fineCell < 256)
    ∧ ("Fine Voltage, Coarse Voltage\n2,3\n2,3\n").data
        <+: (handle_Sensor_body (fun _ => 2) (fun _ => 3)).data
    ∧ (handle_Sensor_body (fun _ => 2) (fun _ => 3)).data.count '\n' = 21 := by
  refine ⟨⟨rfl, rfl⟩, ?_, by decide, handle_Sensor_body_count_newline _ _⟩
  have hfl := truncToUInt8_eq_floor r1 h1
  have hcell : (sensorCycle r1 r2).fineCell = truncToUInt8 (voltage1 r1) := rfl
  refine ⟨?_, ?_, ?_⟩
  · rw [hcell]
    have hq : ((truncToUInt8 (voltage1 r1) : ℚ)) = ((⌊voltage1 r1⌋ : ℤ) : ℚ) := by
      exact_mod_cast congrArg (fun z : ℤ => (z : ℚ)) hfl
    rw [hq]
    exact Int.floor_le (voltage1 r1)
  · rw [hcell]
    have hlt := Int.lt_floor_add_one (voltage1 r1)
    calc voltage1 r1 < ⌊voltage1 r1⌋ + 1 := hlt
      _ = (truncToUInt8 (voltage1 r1) : ℚ) + 1 := by
          push_cast [← hfl]
          ring
  · rw [hcell]
    have := truncToUInt8_le_five r1 h1
    omega

/-- C3 witness: at the full-scale reading 4095 the fine cell holds the
truncation of 5 V. -/
theorem sampler_stores_truncated_voltage_witness :
    (4095 ≤ 4095)
    ∧ (((sensorCycle 4095 0).fineCell : ℚ) ≤ voltage1 4095
        ∧ voltage1 4095 < (sensorCycle 4095 0).fineCell + 1
        ∧ (sensorCycle 4095 0).fineCell < 256) :=
  ⟨by decide, (sampler_stores_truncated_voltage 4095 0 (by decide)).2.1⟩

/-- C4: both channels use the identical conversion
`voltage = raw * (5.0 / 4095.0)` (modelled exactly over the rationals);
the mapping is linear and monotonic, raw count 0 gives 0 V and raw count
4095 gives exactly 5 V. -/
theorem voltage_conversion_linear_monotone :
    (∀ raw, voltage1 raw = voltage2 raw)
    ∧ (∀ raw : ℕ, voltage1 raw = (raw : ℚ) * 5 / 4095)
    ∧ voltage1 0 = 0
    ∧ voltage1 4095 = 5
    ∧ (∀ a b : ℕ, a ≤ b → voltage1 a ≤ voltage1 b)
    ∧ (∀ a b : ℕ, voltage1 (a + b) = voltage1 a + voltage1 b) := by
  refine ⟨fun raw => rfl, fun raw => by unfold voltage1; ring,
    by unfold voltage1; norm_num, by unfold voltage1; norm_num, ?_, ?_⟩
  · intro a b hab
    unfold voltage1
    apply mul_le_mul_of_nonneg_right _ (by norm_num)
    exact_mod_cast hab
  · intro a b
    unfold voltage1
    push_cast
    ring

/-- C4 witness: monotonicity applied at raw counts 1 and 2. -/
theorem voltage_conversion_linear_monotone_witness :
    (1 ≤ 2) ∧ voltage1 1 ≤ voltage1 2 :=
  ⟨by decide, voltage_conversion_linear_monotone.2.2.2.2.1 1 2 (by decide)⟩

/-- C9: `setup` spawns exactly two tasks, the web-server task and the
sensor task, and the sensor (sampler) task's priority is strictly greater
than the web-server task's. -/
theorem setup_spawns_two_tasks :
    setupSpawns.length = 2
    ∧ (∀ t ∈ setupSpawns, t.name = "Web Server" ∨ t.name = "Sensor")
    ∧ (∀ ts ∈ setupSpawns, ∀ ws ∈ setupSpawns,
        ts.name = "Sensor" → ws.name = "Web Server" →
          ws.priority < ts.priority) :=
  ⟨rfl, by decide, by decide⟩

/-- C9 witness: the two spawned tasks compared directly — the sensor task
(priority 4) outranks the web-server task (priority 2). -/
theorem setup_spawns_two_tasks_witness :
    (⟨"Web Server", 8192, 2⟩ : TaskSpawn).priority
      < (⟨"Sensor", 4000, 4⟩ : TaskSpawn).priority :=
  setup_spawns_two_tasks.2.2 ⟨"Sensor", 4000, 4⟩ (by decide)
    ⟨"Web Server", 8192, 2⟩ (by decide) (by decide) (by decide)

/-- C10: every reachable cell value lies in 0..5 — the cells start at 0,
and each stored value is a voltage in `[0, 5]` truncated to an unsigned
integer — and before the first sample the CSV body is the header followed
by twenty `0,0` rows. -/
theorem cells_hold_zero_to_five :
    (∀ v, cellReachable v → v ≤ 5)
    ∧ cellReachable 0
    ∧ handle_Sensor_body (fun _ => 0) (fun _ => 0)
        = "Fine Voltage, Coarse Voltage\n"
          ++ String.join (List.replicate 20 (sensorRow 0 0)) := by
  refine ⟨?_, cellReachable.init, by decide⟩
  intro v h
  cases h with
  | init => omega
  | fine r1 r2 h1 h2 => exact truncToUInt8_le_five r1 h1
  | coarse r1 r2 h1 h2 => exact truncToUInt8_le_five r2 h2

/-- C10 witness: the fine cell value after a full-scale sample is within
the bound. -/
theorem cells_hold_zero_to_five_witness :
    (sensorCycle 4095 0).fineCell ≤ 5 :=
  cells_hold_zero_to_five.1 ((sensorCycle 4095 0).fineCell)
    (cellReachable.fine 4095 0 (by decide) (by decide))

/-! ## Serial-line lemmas -/

/-- The source's serial line is the spec's line with one extra leading
space (`Serial.print(" Fine Wear Voltage: ")`, line 243). -/
theorem debugLine_eq_space_spec (v1 v2 : ℚ) :
    debugLine v1 v2 = " " ++ specDebugLine v1 v2 := by
  unfold debugLine specDebugLine
  simp only [String.append_assoc]
  rfl

/-- The printed rendering of a voltage contains no newline. -/
theorem serialFloatRepr_count_newline (q : ℚ) :
    (serialFloatRepr q).data.count '\n' = 0 := by
  unfold serialFloatRepr
  generalize serialScaled q = n
  by_cases h : n % 100 < 10 <;>
    simp [h, String.data_append, List.count_append, repr_count_newline]

/-- Each sampler cycle prints exactly one newline. -/
theorem debugLine_count_newline (v1 v2 : ℚ) :
    (debugLine v1 v2).data.count '\n' = 1 := by
  unfold debugLine
  simp only [String.data_append, List.count_append, serialFloatRepr_count_newline]
  decide

/-- C5 counterexample: at raw readings 0, 0 the line `task_sensor` prints
is not of the spec's form `Fine Wear Voltage: <v1>V Coarse Wear Voltage:
<v2>V Sum: <v1+v2>V` — the printed line carries a leading space. -/
theorem debug_line_counterexample :
    (sensorCycle 0 0).serialOut
      ≠ specDebugLine (voltage1 0) (voltage2 0) := by
  show debugLine (voltage1 0) (voltage2 0) ≠ specDebugLine (voltage1 0) (voltage2 0)
  intro h
  rw [debugLine_eq_space_spec] at h
  have hlen := congrArg String.length h
  rw [String.length_append] at hlen
  have hone : (" " : String).length = 1 := rfl
  omega

/-- C5 amended: every sampler cycle emits exactly one newline-terminated
serial line, equal to the spec's `Fine Wear Voltage: <v1>V Coarse Wear
Voltage: <v2>V Sum: <v1+v2>V` preceded by one space, where `<v1>`, `<v2>`
and the sum are the converted voltages in Arduino's two-decimal
rendering. -/
theorem debug_line_format (r1 r2 : ℕ) :
    (sensorCycle r1 r2).serialOut
        = " " ++ specDebugLine (voltage1 r1) (voltage2 r2)
    ∧ (sensorCycle r1 r2).serialOut.data.count '\n' = 1 :=
  ⟨debugLine_eq_space_spec _ _, debugLine_count_newline _ _⟩

set_option maxRecDepth 40000 in
/-- C6: the landing handler for `/` answers HTTP 200 with content type
`text/html`; the body is an HTML5 document with a viewport meta tag, a
style block, the title `ESP32 Web Server Test`, an H1 `Oil Debri Testing
Page` and the literal anchor `<a href="/csv">` with text `Debri Test
Data`; and the response is independent of the shared-cell state, so
successive requests return byte-identical bodies. -/
theorem landing_page_response :
    handle_DocumentRoot.status = 200
    ∧ handle_DocumentRoot.contentType = "text/html"
    ∧ ("<!DOCTYPE html>").data <+: handle_DocumentRoot.body.data
    ∧ ("<meta name=\"viewport\"").data <:+: handle_DocumentRoot.body.data
    ∧ ("<style>").data <:+: handle_DocumentRoot.body.data
    ∧ ("<title> ESP32 Web Server Test</title>").data <:+: handle_DocumentRoot.body.data
    ∧ ("<h1>Oil Debri Testing Page</h1>").data <:+: handle_DocumentRoot.body.data
    ∧ ("<a href=\"/csv\">Debri Test Data</a>").data <:+: handle_DocumentRoot.body.data
    ∧ (∀ fineReads coarseReads fineReads2 coarseReads2 : ℕ → ℕ,
        routeOf "/" fineReads coarseReads = routeOf "/" fineReads2 coarseReads2) := by
  refine ⟨rfl, rfl, by decide, by decide, by decide, by decide, by decide, by decide, ?_⟩
  intro fineReads coarseReads fineReads2 coarseReads2
  simp [routeOf]

end OilDebris
